import Mathlib

/-
Verification of the dashboard aggregation and time-range analytics engine
of the bimakart reporting backend (src/main.py).

The development shallowly embeds the Python code: Mongo documents become
Lean structures, queries become list filters, Python ints become Int,
Python floats become exact mantissa-exponent pairs with IEEE-754
round-to-nearest-even semantics, and fallible Python code returns
Option or Except.  Every definition is translated from the source file;
definitions are executable so that concrete inputs evaluate by rfl or
decide.
-/

/- ===== Small numeric helpers (fuel-based, kernel reducible) ===== -/

/-- number of binary digits of n, via an explicit fuel argument so that the
kernel can evaluate it -/
def bitLenAux : Nat → Nat → Nat
  | 0, _ => 0
  | fuel+1, n => if n = 0 then 0 else bitLenAux fuel (n / 2) + 1

/-- number of binary digits of n (0 for 0) -/
def bitLen (n : Nat) : Nat := bitLenAux n n

/-- 2 ^ k as an integer -/
def pow2Int (k : Nat) : Int := ((2 ^ k : Nat) : Int)

/- ===== Model of CPython floats =====

A finite double is a value m * 2 ^ e with integer mantissa and exponent.
All doubles produced by the program are in the normal finite range, so
overflow and subnormal behaviour never arise and are not modelled.
CPython rounds true division of ints and float multiplication to the
nearest representable double, ties to even, which is what fpRound does
with exact integer arithmetic. -/

/-- a CPython float value m * 2 ^ e -/
structure PyFloat where
  m : Int
  e : Int
  deriving DecidableEq, Repr

/-- round A/B (A ≥ 0, B > 0) to the nearest integer, ties to even -/
def roundHalfEvenInt (A B : Int) : Int :=
  let n := A.tdiv B
  let r := A - n * B
  if 2 * r < B then n
  else if B < 2 * r then n + 1
  else if n % 2 = 0 then n else n + 1

/-- floor of log2 of a / (b * 2 ^ s) for a, b > 0 and s ≥ 0 -/
def floorLog2Frac (a b : Int) (s : Nat) : Int :=
  let l : Int := bitLen a.toNat
  let mm : Int := bitLen b.toNat + s
  let t : Int := l - mm
  let lt : Bool :=
    if 0 ≤ s + t then a < b * pow2Int (s + t).toNat
    else a * pow2Int (-(s + t)).toNat < b
  if lt then t - 1 else t

/-- round the rational a * 2 ^ e / b (with b > 0) to the nearest double,
53-bit mantissa, ties to even -/
def fpRound (a : Int) (e : Int) (b : Int) : PyFloat :=
  if a = 0 then ⟨0, 0⟩
  else
    let neg := a < 0
    let a' := if neg then -a else a
    let k : Int :=
      if 0 ≤ e then floorLog2Frac (a' * pow2Int e.toNat) b 0
      else floorLog2Frac a' b (-e).toNat
    let e' := k - 52
    let d : Int := e - e'
    let m :=
      if 0 ≤ d then roundHalfEvenInt (a' * pow2Int d.toNat) b
      else roundHalfEvenInt a' (b * pow2Int (-d).toNat)
    ⟨if neg then -m else m, e'⟩

/-- Python int() applied to a float: truncation toward zero -/
def pyIntOfFloat (x : PyFloat) : Int :=
  if 0 ≤ x.e then x.m * pow2Int x.e.toNat else x.m.tdiv (pow2Int (-x.e).toNat)

/-- Python true division a / b of two ints (b ≠ 0): the correctly rounded
double of the exact quotient -/
def fpDivInt (a b : Int) : PyFloat :=
  if 0 ≤ b then fpRound a 0 b else fpRound (-a) 0 (-b)

/-- Python float multiplication by an exactly representable integer
(the program only multiplies by 100) -/
def fpMulInt (x : PyFloat) (n : Int) : PyFloat := fpRound (x.m * n) x.e 1

/-- the contribution expression of src/main.py lines 582 and 697:
int((revenue / total_revenue * 100) if total_revenue else 0),
with / and * computed in double precision -/
def pyContrib (rev tot : Int) : Int :=
  if tot = 0 then 0 else pyIntOfFloat (fpMulInt (fpDivInt rev tot) 100)

/- ===== Model of the Python scalar values stored in documents ===== -/

/-- a stored scalar identifier: either a raw string or a BSON ObjectId
carrying its 24 hex character representation -/
inductive BVal where
  | vstr (s : String)
  | oid (hex : String)
  deriving DecidableEq, Repr

/-- hexadecimal digit test, both cases, as accepted by bson.ObjectId -/
def isHexDigitChar (c : Char) : Bool :=
  c.isDigit || ('a' ≤ c && c ≤ 'f') || ('A' ≤ c && c ≤ 'F')

/-- ObjectId(s) succeeds exactly on 24 character hex strings -/
def isValidOid (s : String) : Bool := s.length = 24 && s.toList.all isHexDigitChar

/-- try_objectid of src/main.py lines 47-53: decode to ObjectId, fall back
to the raw string when the conversion raises -/
def try_objectid (s : String) : BVal :=
  if isValidOid s then .oid s else .vstr s

/-- Python str() of a stored identifier; str of an ObjectId is its hex form -/
def pyStr : BVal → String
  | .vstr s => s
  | .oid h => h

/-- Python truthiness of a stored identifier -/
def bvalTruthy : BVal → Bool
  | .vstr s => s ≠ ""
  | .oid _ => true

/-- a Python value in an amount field: int, float, string or None -/
inductive PyNum where
  | pint (n : Int)
  | pfloat (f : PyFloat)
  | pstr (s : String)
  | pnone
  deriving DecidableEq, Repr

/-- value of a decimal digit -/
def digitVal (c : Char) : Option Nat :=
  if c.isDigit then some (c.toNat - 48) else none

/-- value of a digit list allowing the empty list as 0 -/
def digitsValAux : List Char → Nat → Nat
  | [], acc => acc
  | c :: cs, acc => digitsValAux cs (acc * 10 + (c.toNat - 48))

/-- parse a nonempty all-digit list -/
def digitsToNat (l : List Char) : Option Nat :=
  if l = [] then none
  else if l.all Char.isDigit then some (digitsValAux l 0) else none

/-- Python int() applied to a string: optional sign followed by digits -/
def parsePyInt (s : String) : Option Int :=
  match s.toList with
  | '-' :: rest => (digitsToNat rest).map (fun n => -(n : Int))
  | '+' :: rest => (digitsToNat rest).map (fun n => (n : Int))
  | l => (digitsToNat l).map (fun n => (n : Int))

/-- split a char list at the first dot -/
def splitDot : List Char → (List Char × Option (List Char))
  | [] => ([], none)
  | '.' :: rest => ([], some rest)
  | c :: rest =>
    let p := splitDot rest
    (c :: p.1, p.2)

/-- parse an unsigned decimal literal to the nearest double -/
def parseDecCore (l : List Char) : Option PyFloat :=
  match splitDot l with
  | (ip, none) => (digitsToNat ip).map (fun n => fpRound (n : Int) 0 1)
  | (ip, some fp) =>
    if ip.isEmpty && fp.isEmpty then none
    else if ip.all Char.isDigit && fp.all Char.isDigit then
      some (fpRound ((digitsValAux ip 0 * 10 ^ fp.length + digitsValAux fp 0 : Nat) : Int)
              0 ((10 ^ fp.length : Nat) : Int))
    else none

/-- Python float() applied to a string: signed decimal literal, correctly
rounded to double -/
def parsePyFloat (s : String) : Option PyFloat :=
  match s.toList with
  | '-' :: rest => (parseDecCore rest).map (fun x => ⟨-x.m, x.e⟩)
  | '+' :: rest => parseDecCore rest
  | l => parseDecCore l

/-- Python int() on an amount value; none models a raised exception -/
def pyIntOf : PyNum → Option Int
  | .pint n => some n
  | .pfloat f => some (pyIntOfFloat f)
  | .pstr s => parsePyInt s
  | .pnone => none

/-- Python float() on an amount value; none models a raised exception -/
def pyFloatOf : PyNum → Option PyFloat
  | .pint n => some (fpRound n 0 1)
  | .pfloat f => some f
  | .pstr s => parsePyFloat s
  | .pnone => none

/-- Python truthiness of an amount value -/
def pyTruthy : PyNum → Bool
  | .pint n => n ≠ 0
  | .pfloat f => f.m ≠ 0
  | .pstr s => s ≠ ""
  | .pnone => false

/-- the expression (amount or 0) -/
def pyOr0 (a : PyNum) : PyNum := if pyTruthy a then a else .pint 0

/-- ASCII lowercase of a string, as Python str.lower on ASCII data -/
def lowerAscii (s : String) : String := String.mk (s.toList.map Char.toLower)

/- ===== Datetime model ===== -/

/-- a naive datetime with one second resolution (the program never inspects
sub-second fields) -/
structure DateTime where
  year : Int
  month : Nat
  day : Nat
  hour : Nat
  minute : Nat
  second : Nat
  deriving DecidableEq, Repr

/-- Gregorian leap year test -/
def isLeap (y : Int) : Bool := y % 4 = 0 && (y % 100 ≠ 0 || y % 400 = 0)

/-- days in a month, 0 for an invalid month number -/
def daysInMonth (y : Int) (m : Nat) : Nat :=
  if m = 1 then 31
  else if m = 2 then (if isLeap y then 29 else 28)
  else if m = 3 then 31
  else if m = 4 then 30
  else if m = 5 then 31
  else if m = 6 then 30
  else if m = 7 then 31
  else if m = 8 then 31
  else if m = 9 then 30
  else if m = 10 then 31
  else if m = 11 then 30
  else if m = 12 then 31
  else 0

/-- the datetime(y, m, d) constructor: validates its arguments and raises
(none) on an out of range month or day, as CPython does -/
def mkDate (y m d : Int) : Option DateTime :=
  if 1 ≤ y ∧ y ≤ 9999 ∧ 1 ≤ m ∧ m ≤ 12 ∧ 1 ≤ d ∧ d ≤ (daysInMonth y m.toNat : Int)
  then some ⟨y, m.toNat, d.toNat, 0, 0, 0⟩ else none

/-- full constructor with time fields, validating every component -/
def mkDateTimeFull (y mo d h mi s : Nat) : Option DateTime :=
  if 1 ≤ y ∧ y ≤ 9999 ∧ 1 ≤ mo ∧ mo ≤ 12 ∧ 1 ≤ d ∧ d ≤ daysInMonth (y : Int) mo
      ∧ h ≤ 23 ∧ mi ≤ 59 ∧ s ≤ 59
  then some ⟨(y : Int), mo, d, h, mi, s⟩ else none

/-- one calendar day earlier, keeping the time of day -/
def subDay (t : DateTime) : DateTime :=
  if 2 ≤ t.day then { t with day := t.day - 1 }
  else if t.month = 1 then { t with year := t.year - 1, month := 12, day := 31 }
  else { t with month := t.month - 1, day := daysInMonth t.year (t.month - 1) }

/-- n calendar days earlier -/
def subDays (t : DateTime) : Nat → DateTime
  | 0 => t
  | n+1 => subDays (subDay t) n

/-- pd.DateOffset(months=1) subtraction: previous month, day clamped to its
length, time kept -/
def subMonthClamp (t : DateTime) : DateTime :=
  let y := if t.month = 1 then t.year - 1 else t.year
  let m := if t.month = 1 then 12 else t.month - 1
  { t with year := y, month := m, day := min t.day (daysInMonth y m) }

/-- Timestamp.normalize(): midnight of the same day -/
def normalizeTs (t : DateTime) : DateTime :=
  { t with hour := 0, minute := 0, second := 0 }

/-- pd.Timestamp.min, 1677-09-21 00:12:43 (sub-second part dropped) -/
def tsMin : DateTime := ⟨1677, 9, 21, 0, 12, 43⟩

/-- lexicographic order on datetimes (agrees with chronological order on
valid datetimes); models Mongo comparison of createdAt values -/
def dtLe (a b : DateTime) : Bool :=
  if a.year ≠ b.year then a.year < b.year
  else if a.month ≠ b.month then a.month < b.month
  else if a.day ≠ b.day then a.day < b.day
  else if a.hour ≠ b.hour then a.hour < b.hour
  else if a.minute ≠ b.minute then a.minute < b.minute
  else a.second ≤ b.second

/-- the date range resolver _range_to_dates of src/main.py lines 424-457,
with the two pd.Timestamp.now() calls passed in as the argument now.
A none result models a raised ValueError. -/
def range_to_dates (range_key : String) (now : DateTime) :
    Option (DateTime × DateTime) :=
  if range_key = "1D" then some (subDays now 1, now)
  else if range_key = "1W" then some (subDays now 7, now)
  else if range_key = "1M" then some (subMonthClamp now, now)
  else if range_key = "last_month" then
    some (normalizeTs (subMonthClamp { now with day := 1 }), subDay { now with day := 1 })
  else if range_key = "this_quarter" then
    let q : Nat := (now.month - 1) / 3 + 1
    (mkDate now.year (3 * ((q : Int) - 1) + 1) 1).map (fun s => (s, now))
  else if range_key = "last_quarter" then
    let q : Nat := (now.month - 1) / 3 + 1
    (mkDate now.year (3 * ((q : Int) - 2) + 1) 1).map (fun s => (s, now))
  else if range_key = "this_fy" then
    (if 4 ≤ now.month then mkDate now.year 4 1 else mkDate (now.year - 1) 4 1).map
      (fun s => (s, now))
  else if range_key = "last_fy" then
    (if 4 ≤ now.month then mkDate (now.year - 1) 4 1 else mkDate (now.year - 2) 4 1).map
      (fun s => (s, now))
  else some (tsMin, now)

/-- datetime.fromisoformat restricted to the two layouts the dashboard
callers use: YYYY-MM-DD and YYYY-MM-DD[T ]HH:MM:SS; none models a raised
ValueError -/
def fromisoformat (s : String) : Option DateTime :=
  match s.toList with
  | [y1, y2, y3, y4, '-', m1, m2, '-', d1, d2] =>
    match digitsToNat [y1, y2, y3, y4], digitsToNat [m1, m2], digitsToNat [d1, d2] with
    | some y, some mo, some d => mkDateTimeFull y mo d 0 0 0
    | _, _, _ => none
  | [y1, y2, y3, y4, '-', m1, m2, '-', d1, d2, sep, h1, h2, ':', mi1, mi2, ':', s1, s2] =>
    if sep = 'T' || sep = ' ' then
      match digitsToNat [y1, y2, y3, y4], digitsToNat [m1, m2], digitsToNat [d1, d2],
            digitsToNat [h1, h2], digitsToNat [mi1, mi2], digitsToNat [s1, s2] with
      | some y, some mo, some d, some h, some mi, some ss => mkDateTimeFull y mo d h mi ss
      | _, _, _, _, _, _ => none
    else none
  | _ => none

/-- decimal digits of n, most significant first, fuel based -/
def natDigitsAux : Nat → Nat → List Char → List Char
  | 0, _, acc => acc
  | fuel+1, n, acc =>
    let d := Char.ofNat (48 + n % 10)
    if n < 10 then d :: acc else natDigitsAux fuel (n / 10) (d :: acc)

/-- decimal rendering of n left padded with zeros to the given width -/
def padNum (width : Nat) (n : Nat) : String :=
  let ds := natDigitsAux (n + 1) n []
  String.mk (List.replicate (width - ds.length) '0' ++ ds)

/-- dt.date().isoformat() of the chart endpoint: the YYYY-MM-DD key -/
def dateKey (t : DateTime) : String :=
  padNum 4 t.year.toNat ++ "-" ++ padNum 2 t.month ++ "-" ++ padNum 2 t.day

/- ===== Document store model ===== -/

/-- a policyapplications document (fields the engine reads) -/
structure Application where
  id : BVal
  agentId : BVal
  productId : Option BVal
  deriving DecidableEq, Repr

/-- a policyissuances document -/
structure Issuance where
  id : BVal
  applicationId : BVal
  productId : Option BVal
  amount : PyNum
  createdAt : DateTime
  deriving DecidableEq, Repr

/-- a paymentorders document; status is str(p.get('status', '')) -/
structure Payment where
  id : BVal
  applicationId : BVal
  amount : PyNum
  status : String
  createdAt : DateTime
  deriving DecidableEq, Repr

/-- a products document; an empty name models a missing or empty name field -/
structure Product where
  id : BVal
  name : String
  deriving DecidableEq, Repr

/-- the collections the dashboard engine reads -/
structure Store where
  policyapplications : List Application
  policyissuances : List Issuance
  paymentorders : List Payment
  products : List Product
  deriving Repr

/-- the application filter of the stats and policies endpoints
(src/main.py lines 492 and 637): agentId equals the raw string or its
decoded ObjectId form -/
def matchesAgentDual (agent_id : String) (a : Application) : Bool :=
  a.agentId == BVal.vstr agent_id || a.agentId == try_objectid agent_id

/-- application fetch of the stats endpoint, line 492 -/
def statsApps (agent_id : String) (st : Store) : List Application :=
  st.policyapplications.filter (matchesAgentDual agent_id)

/-- application fetch of the policies endpoint, line 637 (same dual filter) -/
def policiesApps (agent_id : String) (st : Store) : List Application :=
  st.policyapplications.filter (matchesAgentDual agent_id)

/-- application fetch of the chart endpoint, line 613: raw string equality
only -/
def chartApps (agent_id : String) (st : Store) : List Application :=
  st.policyapplications.filter (fun a => a.agentId == BVal.vstr agent_id)

/-- value stored in appid_to_product for one application:
str(a.get('productId')) if a.get('productId') else None -/
def appProductVal (a : Application) : Option String :=
  match a.productId with
  | some v => if bvalTruthy v then some (pyStr v) else none
  | none => none

/-- the appid_to_product dict comprehension (lines 497 and 643), as an
insertion ordered association list -/
def appProductMap (apps : List Application) : List (String × Option String) :=
  apps.map (fun a => (pyStr a.id, appProductVal a))

/-- Python dict get: the value of the last binding of the key, none when
absent -/
def dictGet (m : List (String × α)) (k : String) : Option α :=
  (m.reverse.find? (fun p => p.1 == k)).map (fun p => p.2)

/-- the accepted payment status list of lines 512 and 657 -/
def ok_status : List String :=
  ["paid", "success", "captured", "completed",
   "PAID", "SUCCESS", "CAPTURED", "COMPLETED"]

/-- str(p.get('status', '')).lower() in ok_status -/
def statusOk (s : String) : Bool := ok_status.contains (lowerAscii s)

/-- amount parse of the headline revenue loop (lines 516-522):
int(amount or 0), falling back to int(float(amount or 0)), then 0 -/
def statsAmount (a : PyNum) : Int :=
  match pyIntOf (pyOr0 a) with
  | some n => n
  | none =>
    match pyFloatOf (pyOr0 a) with
    | some f => pyIntOfFloat f
    | none => 0

/-- amount parse of the per-product bucket loops (lines 541-544 and
662-665): int(amount or 0), falling back directly to 0 -/
def bucketAmount (a : PyNum) : Int := (pyIntOf (pyOr0 a)).getD 0

/-- modelled Python exception kind raised by the embedded endpoints -/
inductive PyErr where
  | valueError
  deriving DecidableEq, Repr

/-- amount parse of the chart endpoint (line 623): int(amount or 0) with no
exception handler, so a parse failure raises -/
def chartAmount (a : PyNum) : Except PyErr Int :=
  match pyIntOf (pyOr0 a) with
  | some n => .ok n
  | none => .error .valueError

/-- the headline revenue loop of lines 513-523 -/
def statsRevenue : List Payment → Int
  | [] => 0
  | p :: rest => (if statusOk p.status then statsAmount p.amount else 0) + statsRevenue rest

/- ===== Aggregation ===== -/

/-- one per-product bucket -/
structure Bucket where
  sold : Nat
  revenue : Int
  deriving DecidableEq, Repr

/-- dict setdefault followed by a field update, on an insertion ordered
association list -/
def updBucket (m : List (String × Bucket)) (k : String) (f : Bucket → Bucket) :
    List (String × Bucket) :=
  match m with
  | [] => [(k, f ⟨0, 0⟩)]
  | kv :: rest =>
    if kv.1 == k then (kv.1, f kv.2) :: rest else kv :: updBucket rest k f

/-- product id resolution for an issuance (lines 529-532): the issuance
productId when truthy, else the parent application entry, else unknown -/
def issuancePid (appMap : List (String × Option String)) (ins : Issuance) : String :=
  let fromMap : String :=
    match (dictGet appMap (pyStr ins.applicationId)).join with
    | some s => if s ≠ "" then s else "unknown"
    | none => "unknown"
  match ins.productId with
  | some v => if bvalTruthy v then pyStr v else fromMap
  | none => fromMap

/-- product id resolution for a payment (line 539):
appid_to_product.get(...) or unknown -/
def paymentPid (appMap : List (String × Option String)) (p : Payment) : String :=
  match (dictGet appMap (pyStr p.applicationId)).join with
  | some s => if s ≠ "" then s else "unknown"
  | none => "unknown"

/-- the issuance loop of lines 527-534 / 649-655: bump sold per bucket -/
def foldIssuances (appMap : List (String × Option String)) (l : List Issuance)
    (m0 : List (String × Bucket)) : List (String × Bucket) :=
  match l with
  | [] => m0
  | ins :: rest =>
    foldIssuances appMap rest
      (updBucket m0 (issuancePid appMap ins) (fun b => { b with sold := b.sold + 1 }))

/-- the payment loop of lines 536-548 / 658-667: add parsed amounts to
bucket revenue for qualifying statuses -/
def foldPayments (appMap : List (String × Option String)) (l : List Payment)
    (m0 : List (String × Bucket)) : List (String × Bucket) :=
  match l with
  | [] => m0
  | p :: rest =>
    foldPayments appMap rest
      (if statusOk p.status then
        updBucket m0 (paymentPid appMap p)
          (fun b => { b with revenue := b.revenue + bucketAmount p.amount })
      else m0)

/-- sum of the bucket revenues (lines 553 and 688) -/
def totalRevenue : List (String × Bucket) → Int
  | [] => 0
  | kv :: rest => kv.2.revenue + totalRevenue rest

/-- product display name resolution of lines 556-573 / 669-687, success
path of the store lookup -/
def productName (prods : List Product) (pid : String) : String :=
  if pid == "" || pid == "unknown" then "Unknown"
  else
    match prods.find? (fun d => d.id == try_objectid pid) with
    | some d => if d.name ≠ "" then d.name else pid
    | none => pid

/- ===== Ranking, pagination, response assembly ===== -/

/-- a topPolicies row of the stats response -/
structure StatsRow where
  policyId : String
  policyName : String
  sold : Nat
  revenue : Int
  contribution : Int
  deriving DecidableEq, Repr

/-- a data row of the policies response (the icon field is always null and
is omitted) -/
structure PolicyRow where
  policyId : String
  policyName : String
  sold : Nat
  revenue : Int
  contribution : Int
  deriving DecidableEq, Repr

/-- the top_list construction of lines 575-583 -/
def buildTopList (prods : List Product) (m : List (String × Bucket)) (total : Int) :
    List StatsRow :=
  m.map (fun kv =>
    { policyId := kv.1, policyName := productName prods kv.1,
      sold := kv.2.sold, revenue := kv.2.revenue,
      contribution := pyContrib kv.2.revenue total })

/-- the rows construction of lines 689-698; per-row revenue is converted
to minor units inline -/
def buildPolicyRows (prods : List Product) (m : List (String × Bucket)) (total : Int) :
    List PolicyRow :=
  m.map (fun kv =>
    { policyId := kv.1, policyName := productName prods kv.1,
      sold := kv.2.sold, revenue := kv.2.revenue * 100,
      contribution := pyContrib kv.2.revenue total })

/-- stable insertion for a descending sort: x goes before the first element
whose key is not larger, so ties keep their original order, matching
Python sorted with reverse=True -/
def insertDescBy (key : α → Int) (x : α) : List α → List α
  | [] => [x]
  | y :: ys => if key y ≤ key x then x :: y :: ys else y :: insertDescBy key x ys

/-- stable descending sort by an integer key -/
def sortDescBy (key : α → Int) (l : List α) : List α := l.foldr (insertDescBy key) []

/-- stable insertion for an ascending sort -/
def insertAscBy (key : α → Int) (x : α) : List α → List α
  | [] => [x]
  | y :: ys => if key x ≤ key y then x :: y :: ys else y :: insertAscBy key x ys

/-- stable ascending sort by an integer key, matching Python sorted -/
def sortAscBy (key : α → Int) (l : List α) : List α := l.foldr (insertAscBy key) []

/-- the final unit conversion of lines 587-592.  best is top_list[0], the
same dict object as the first list element, so the in-place loop multiplies
it by 100 and the final line multiplies the shared object by 100 again;
both views expose the doubly converted row. -/
def statsFinalize (topList : List StatsRow) : List StatsRow × Option StatsRow :=
  let l := topList.map (fun r => { r with revenue := r.revenue * 100 })
  match l with
  | [] => ([], none)
  | r0 :: rest =>
    let r0' := { r0 with revenue := r0.revenue * 100 }
    (r0' :: rest, some r0')

/-- the stats response shape; period keeps the resolved datetimes -/
structure StatsResp where
  policiesIssued : Nat
  revenue : Int
  bestSellingPolicy : Option StatsRow
  topPolicies : List StatsRow
  periodFrom : DateTime
  periodTo : DateTime
  deriving DecidableEq, Repr

/-- GET /api/agents/agent_id/dashboard/stats (src/main.py lines 480-599).
The second component lists the collections hit by the issuance and payment
queries; an error models an uncaught Python exception (HTTP 500). -/
def agent_stats (agent_id : String) (range : String) (now : DateTime) (st : Store) :
    Except PyErr (StatsResp × List String) :=
  match range_to_dates range now with
  | none => .error .valueError
  | some (start, stop) =>
    let apps := statsApps agent_id st
    let app_ids := apps.map (fun a => a.id)
    let appMap := appProductMap apps
    let issuances := if app_ids.isEmpty then [] else
      st.policyissuances.filter (fun i =>
        app_ids.contains i.applicationId && dtLe start i.createdAt && dtLe i.createdAt stop)
    let payments := if app_ids.isEmpty then [] else
      st.paymentorders.filter (fun p =>
        app_ids.contains p.applicationId && dtLe start p.createdAt && dtLe p.createdAt stop)
    let revenue := statsRevenue payments
    let prod_count := foldPayments appMap payments (foldIssuances appMap issuances [])
    let total := totalRevenue prod_count
    let top_list := sortDescBy (fun r => (r.sold : Int)) (buildTopList st.products prod_count total)
    let fin := statsFinalize top_list
    let queries := if app_ids.isEmpty then [] else ["policyissuances", "paymentorders"]
    .ok ({ policiesIssued := issuances.length, revenue := revenue * 100,
           bestSellingPolicy := fin.2, topPolicies := fin.1,
           periodFrom := start, periodTo := stop }, queries)

/-- one aggregated point of the chart series -/
structure ChartPoint where
  date : String
  sales : Nat
  revenue : Int
  deriving DecidableEq, Repr

/-- the chart response shape -/
structure ChartResp where
  series : List ChartPoint
  metaInterval : String
  metaPoints : Nat
  deriving DecidableEq, Repr

/-- ascending lexicographic comparison of strings by code point, the order
pandas groupby uses on the YYYY-MM-DD keys -/
def charListLe : List Char → List Char → Bool
  | [], _ => true
  | _ :: _, [] => false
  | a :: as, b :: bs =>
    if a.toNat < b.toNat then true
    else if b.toNat < a.toNat then false
    else charListLe as bs

/-- string comparison used to order chart dates -/
def strLe (a b : String) : Bool := charListLe a.toList b.toList

/-- keep the first occurrence of every string, carrying the set already seen -/
def dedupStrAux (seen : List String) : List String → List String
  | [] => []
  | s :: rest =>
    if seen.contains s then dedupStrAux seen rest
    else s :: dedupStrAux (s :: seen) rest

/-- keep the first occurrence of every string -/
def dedupStr (l : List String) : List String := dedupStrAux [] l

/-- stable insertion sort by a boolean order -/
def insertByRel (before : α → α → Bool) (x : α) : List α → List α
  | [] => [x]
  | y :: ys => if before x y then x :: y :: ys else y :: insertByRel before x ys

/-- stable sort by a boolean order -/
def sortByRel (before : α → α → Bool) (l : List α) : List α :=
  l.foldr (insertByRel before) []

/-- df.groupby('date').agg(sales sum, revenue sum) of line 627: one point
per distinct date, dates ascending, sales counting the rows of the date
and revenue summing their amounts -/
def chartGroup (rows : List (String × Int)) : List ChartPoint :=
  (sortByRel strLe (dedupStr (rows.map (fun r => r.1)))).map (fun d =>
    { date := d,
      sales := (rows.filter (fun r => r.1 == d)).length,
      revenue := (rows.filter (fun r => r.1 == d)).foldl (fun acc r => acc + r.2) 0 })

/-- start date resolution of the chart endpoint, lines 605-608: parse the
given start string (falsy strings and absence fall back to the 1M range),
raising on a malformed value -/
def chartStartDt (startParam : Option String) (now : DateTime) : Except PyErr DateTime :=
  match startParam with
  | some s =>
    if s == "" then
      match range_to_dates "1M" now with
      | some pr => Except.ok pr.1
      | none => Except.error PyErr.valueError
    else
      match fromisoformat s with
      | some d => Except.ok d
      | none => Except.error PyErr.valueError
  | none =>
    match range_to_dates "1M" now with
    | some pr => Except.ok pr.1
    | none => Except.error PyErr.valueError

/-- end date resolution of the chart endpoint, lines 609-612 -/
def chartEndDt (endParam : Option String) (now : DateTime) : Except PyErr DateTime :=
  match endParam with
  | some s =>
    if s == "" then
      match range_to_dates "1M" now with
      | some pr => Except.ok pr.2
      | none => Except.error PyErr.valueError
    else
      match fromisoformat s with
      | some d => Except.ok d
      | none => Except.error PyErr.valueError
  | none =>
    match range_to_dates "1M" now with
    | some pr => Except.ok pr.2
    | none => Except.error PyErr.valueError

/-- GET /api/agents/agent_id/dashboard/chart (src/main.py lines 602-629).
startParam and endParam model the start and end query strings (absent or
given); policyId and interval are the remaining query parameters.  The
second component lists the collections hit after the application fetch;
an error models an uncaught Python exception (HTTP 500). -/
def agent_chart (agent_id : String) (startParam endParam : Option String)
    (interval : String) (policyId : Option String) (now : DateTime) (st : Store) :
    Except PyErr (ChartResp × List String) := do
  let start_dt ← chartStartDt startParam now
  let end_dt ← chartEndDt endParam now
  let apps := chartApps agent_id st
  let app_ids := apps.map (fun a => a.id)
  if app_ids.isEmpty then
    return ({ series := [], metaInterval := interval, metaPoints := 0 }, [])
  else
    let issuances := st.policyissuances.filter (fun i =>
      app_ids.contains i.applicationId && dtLe start_dt i.createdAt && dtLe i.createdAt end_dt)
    let rows ← issuances.mapM (fun ins =>
      (chartAmount ins.amount).map (fun amt => (dateKey ins.createdAt, amt)))
    let series := chartGroup rows
    return ({ series := series, metaInterval := interval, metaPoints := series.length },
            ["policyissuances"])

/-- the policies response shape -/
structure PoliciesResp where
  data : List PolicyRow
  page : Nat
  limit : Nat
  total : Nat
  deriving DecidableEq, Repr

/-- x.get(sortBy, 0) for the three recognized sort keys -/
def policySortKey (sortBy : String) (r : PolicyRow) : Int :=
  if sortBy == "sold" then (r.sold : Int)
  else if sortBy == "revenue" then r.revenue
  else if sortBy == "contribution" then r.contribution
  else 0

/-- GET /api/agents/agent_id/dashboard/policies (src/main.py lines
632-704).  The second component lists the collections hit by the issuance
and payment queries. -/
def agent_policies (agent_id : String) (page limit : Nat) (sortBy order range : String)
    (now : DateTime) (st : Store) : Except PyErr (PoliciesResp × List String) :=
  match range_to_dates range now with
  | none => .error .valueError
  | some (start, stop) =>
    let apps := policiesApps agent_id st
    let app_ids := apps.map (fun a => a.id)
    if app_ids.isEmpty then
      .ok ({ data := [], page := page, limit := limit, total := 0 }, [])
    else
      let appMap := appProductMap apps
      let issuances := st.policyissuances.filter (fun i =>
        app_ids.contains i.applicationId && dtLe start i.createdAt && dtLe i.createdAt stop)
      let payments := st.paymentorders.filter (fun p =>
        app_ids.contains p.applicationId && dtLe start p.createdAt && dtLe p.createdAt stop)
      let perf := foldPayments appMap payments (foldIssuances appMap issuances [])
      let total := totalRevenue perf
      let rows := buildPolicyRows st.products perf total
      let sorted :=
        if sortBy == "sold" || sortBy == "revenue" || sortBy == "contribution" then
          if order == "desc" then sortDescBy (policySortKey sortBy) rows
          else sortAscBy (policySortKey sortBy) rows
        else rows
      let pageRows := (sorted.drop ((page - 1) * limit)).take limit
      .ok ({ data := pageRows, page := page, limit := limit, total := sorted.length },
           ["policyissuances", "paymentorders"])

/-- sum of the amounts the bucket loop adds for a payment list (qualifying
statuses only, bucket parse) -/
def bucketPaySum : List Payment → Int
  | [] => 0
  | p :: rest => (if statusOk p.status then bucketAmount p.amount else 0) + bucketPaySum rest

/- ===== Theorems ===== -/

/-- C1: in the stats endpoint, the top level revenue is the aggregated
major unit figure times 100, but the best selling row, which is the same
dict object as the first element of topPolicies, has the conversion
applied twice: one qualifying payment of 500 yields revenue 50000 while
bestSellingPolicy and topPolicies carry 5000000 instead of 50000. -/
theorem agent_stats_best_revenue_double_conversion :
    (agent_stats "agent1" "all_time" ⟨2024, 3, 15, 12, 0, 0⟩
        ⟨[⟨BVal.vstr "app1", BVal.vstr "agent1", some (BVal.vstr "prodA")⟩],
         [⟨BVal.vstr "iss1", BVal.vstr "app1", none, PyNum.pnone, ⟨2024, 3, 10, 0, 0, 0⟩⟩],
         [⟨BVal.vstr "pay1", BVal.vstr "app1", PyNum.pint 500, "paid", ⟨2024, 3, 10, 0, 0, 0⟩⟩],
         []⟩).map (fun r =>
      (r.1.policiesIssued, r.1.revenue, r.1.topPolicies.map StatsRow.revenue,
       r.1.bestSellingPolicy.map StatsRow.revenue))
      = Except.ok (1, 50000, [5000000], some 5000000)
    ∧ (5000000 : Int) ≠ 500 * 100 := ⟨rfl, by decide⟩

/-- C2: resolving last_quarter in the first calendar quarter computes
datetime(year, -2, 1) and raises instead of crossing into the previous
year; in the second quarter and later it does return the first day of the
previous quarter. -/
theorem range_to_dates_last_quarter_first_quarter_raises :
    range_to_dates "last_quarter" ⟨2024, 2, 15, 12, 0, 0⟩ = none
    ∧ range_to_dates "last_quarter" ⟨2024, 5, 15, 12, 0, 0⟩
        = some (⟨2024, 1, 1, 0, 0, 0⟩, ⟨2024, 5, 15, 12, 0, 0⟩) := ⟨rfl, rfl⟩

/-- C3 counterexample: for now equal to 2024-03-15T00:00:00 the resolved
last_month range ends at 2024-02-29T00:00:00, not at 2024-02-29T23:59:59
as the claim states. -/
theorem range_to_dates_last_month_end_not_end_of_day :
    range_to_dates "last_month" ⟨2024, 3, 15, 0, 0, 0⟩
      = some (⟨2024, 2, 1, 0, 0, 0⟩, ⟨2024, 2, 29, 0, 0, 0⟩)
    ∧ (⟨2024, 2, 29, 0, 0, 0⟩ : DateTime) ≠ ⟨2024, 2, 29, 23, 59, 59⟩ :=
  ⟨rfl, by decide⟩

/-- C3 amended: last_month resolves to the first day of the previous
calendar month at midnight, and to the last day of the previous calendar
month carrying the time of day of now (not 23:59:59). -/
theorem range_to_dates_last_month_shape (now : DateTime)
    (h1 : 1 ≤ now.month) (h2 : now.month ≤ 12) :
    range_to_dates "last_month" now =
      some (⟨(if now.month = 1 then now.year - 1 else now.year),
             (if now.month = 1 then 12 else now.month - 1), 1, 0, 0, 0⟩,
            ⟨(if now.month = 1 then now.year - 1 else now.year),
             (if now.month = 1 then 12 else now.month - 1),
             daysInMonth (if now.month = 1 then now.year - 1 else now.year)
               (if now.month = 1 then 12 else now.month - 1),
             now.hour, now.minute, now.second⟩) := by
  obtain ⟨y, mo, d, h, mi, s⟩ := now
  simp only at h1 h2
  interval_cases mo <;>
    simp [range_to_dates, subMonthClamp, subDay, normalizeTs, daysInMonth] <;>
    split <;> simp

/-- C3 witness: the amended statement at 2024-03-15T10:30:05 -/
theorem range_to_dates_last_month_shape_witness :
    range_to_dates "last_month" ⟨2024, 3, 15, 10, 30, 5⟩ =
      some (⟨2024, 2, 1, 0, 0, 0⟩, ⟨2024, 2, 29, 10, 30, 5⟩) := by
  have h := range_to_dates_last_month_shape ⟨2024, 3, 15, 10, 30, 5⟩ (by decide) (by decide)
  simpa [daysInMonth, isLeap] using h

/-- helper: the sum of bucket revenues is unchanged by a sold increment -/
theorem totalRevenue_updBucket_sold (m : List (String × Bucket)) (k : String) :
    totalRevenue (updBucket m k (fun b => { b with sold := b.sold + 1 }))
      = totalRevenue m := by
  induction m with
  | nil => simp [updBucket, totalRevenue]
  | cons kv rest ih =>
    by_cases h : kv.1 == k <;> simp [updBucket, h, totalRevenue, ih]

/-- helper: adding amt to one bucket revenue adds amt to the total -/
theorem totalRevenue_updBucket_rev (m : List (String × Bucket)) (k : String) (amt : Int) :
    totalRevenue (updBucket m k (fun b => { b with revenue := b.revenue + amt }))
      = totalRevenue m + amt := by
  induction m with
  | nil => simp [updBucket, totalRevenue]
  | cons kv rest ih =>
    by_cases h : kv.1 == k <;> simp [updBucket, h, totalRevenue, ih] <;> ring

/-- helper: the issuance loop never touches bucket revenue -/
theorem totalRevenue_foldIssuances (appMap : List (String × Option String))
    (l : List Issuance) (m0 : List (String × Bucket)) :
    totalRevenue (foldIssuances appMap l m0) = totalRevenue m0 := by
  induction l generalizing m0 with
  | nil => rfl
  | cons ins rest ih => simp [foldIssuances, ih, totalRevenue_updBucket_sold]

/-- helper: the payment loop adds exactly the bucket parsed amounts of the
qualifying payments to the total -/
theorem totalRevenue_foldPayments (appMap : List (String × Option String))
    (l : List Payment) (m0 : List (String × Bucket)) :
    totalRevenue (foldPayments appMap l m0) = totalRevenue m0 + bucketPaySum l := by
  induction l generalizing m0 with
  | nil => simp [foldPayments, bucketPaySum]
  | cons p rest ih =>
    by_cases h : statusOk p.status <;>
      simp [foldPayments, h, ih, bucketPaySum, totalRevenue_updBucket_rev] <;> ring

/-- helper: when every qualifying amount parses by int() directly, the
headline parse and the bucket parse agree payment by payment -/
theorem statsRevenue_eq_bucketPaySum (pays : List Payment)
    (h : ∀ p ∈ pays, statusOk p.status = true → (pyIntOf (pyOr0 p.amount)).isSome) :
    statsRevenue pays = bucketPaySum pays := by
  induction pays with
  | nil => rfl
  | cons p rest ih =>
    have hp := h p (by simp)
    have hrest := ih (fun q hq => h q (by simp [hq]))
    by_cases hs : statusOk p.status
    · obtain ⟨n, hn⟩ := Option.isSome_iff_exists.mp (hp hs)
      simp [statsRevenue, bucketPaySum, hs, hrest, statsAmount, bucketAmount, hn]
    · simp [statsRevenue, bucketPaySum, hs, hrest]

/-- C4 amended: the headline revenue of the stats endpoint equals the sum
of the per product bucket revenues whenever every qualifying payment
amount parses by int() directly (ints, floats, int strings); a float
string amount breaks the equality because only the headline loop falls
back to int(float(.)). -/
theorem stats_revenue_matches_bucket_total (appMap : List (String × Option String))
    (iss : List Issuance) (pays : List Payment)
    (h : ∀ p ∈ pays, statusOk p.status = true → (pyIntOf (pyOr0 p.amount)).isSome) :
    statsRevenue pays
      = totalRevenue (foldPayments appMap pays (foldIssuances appMap iss [])) := by
  rw [totalRevenue_foldPayments, totalRevenue_foldIssuances]
  simp [totalRevenue, statsRevenue_eq_bucketPaySum pays h]

/-- C4 witness: the amended statement on two qualifying int payments and a
non qualifying unparseable one -/
theorem stats_revenue_matches_bucket_total_witness :
    statsRevenue
        [⟨BVal.vstr "p1", BVal.vstr "a1", PyNum.pint 30, "Paid", ⟨2024, 3, 10, 0, 0, 0⟩⟩,
         ⟨BVal.vstr "p2", BVal.vstr "a1", PyNum.pint 70, "completed", ⟨2024, 3, 11, 0, 0, 0⟩⟩,
         ⟨BVal.vstr "p3", BVal.vstr "a1", PyNum.pstr "9x", "failed", ⟨2024, 3, 12, 0, 0, 0⟩⟩]
      = totalRevenue (foldPayments []
          [⟨BVal.vstr "p1", BVal.vstr "a1", PyNum.pint 30, "Paid", ⟨2024, 3, 10, 0, 0, 0⟩⟩,
           ⟨BVal.vstr "p2", BVal.vstr "a1", PyNum.pint 70, "completed", ⟨2024, 3, 11, 0, 0, 0⟩⟩,
           ⟨BVal.vstr "p3", BVal.vstr "a1", PyNum.pstr "9x", "failed", ⟨2024, 3, 12, 0, 0, 0⟩⟩]
          (foldIssuances [] [] [])) :=
  stats_revenue_matches_bucket_total [] [] _ (by decide)

/-- C4 counterexample: a qualifying payment whose amount is the float
string 500.5 contributes 500 to the headline revenue but 0 to its bucket,
so the two totals differ. -/
theorem stats_revenue_bucket_mismatch_on_float_string :
    statsRevenue
        [⟨BVal.vstr "pay1", BVal.vstr "app1", PyNum.pstr "500.5", "paid", ⟨2024, 3, 10, 0, 0, 0⟩⟩]
      = 500
    ∧ totalRevenue (foldPayments
          (appProductMap [⟨BVal.vstr "app1", BVal.vstr "agent1", none⟩])
          [⟨BVal.vstr "pay1", BVal.vstr "app1", PyNum.pstr "500.5", "paid", ⟨2024, 3, 10, 0, 0, 0⟩⟩]
          []) = 0
    ∧ (500 : Int) ≠ 0 := ⟨rfl, rfl, by decide⟩

/-- C5 amended: every row of the stats top list and of the policies rows
carries contribution equal to the int() truncation of the double
precision value revenue / total * 100 when the total is nonzero, and 0
when the total is 0; the double precision value can fall below the exact
rational, so this is not always the exact floor. -/
theorem rows_contribution_float_semantics (prods : List Product)
    (m : List (String × Bucket)) :
    ((buildTopList prods m (totalRevenue m)).map (fun r => r.contribution)
        = m.map (fun kv => if totalRevenue m = 0 then 0
            else pyIntOfFloat (fpMulInt (fpDivInt kv.2.revenue (totalRevenue m)) 100)))
    ∧ ((buildPolicyRows prods m (totalRevenue m)).map (fun r => r.contribution)
        = m.map (fun kv => if totalRevenue m = 0 then 0
            else pyIntOfFloat (fpMulInt (fpDivInt kv.2.revenue (totalRevenue m)) 100))) := by
  constructor <;>
    · simp only [buildTopList, buildPolicyRows, List.map_map]
      congr 1

/-- C5 counterexample: with bucket revenues 29 and 71 (total 100) the code
computes contributions 28 and 71, while the exact floor of 29 * 100 / 100
is 29: double rounding loses the exact floor. -/
theorem contribution_below_exact_floor :
    (buildTopList [] [("A", ⟨0, 29⟩), ("B", ⟨0, 71⟩)]
        (totalRevenue [("A", ⟨0, 29⟩), ("B", ⟨0, 71⟩)])).map (fun r => r.contribution)
      = [28, 71]
    ∧ Int.fdiv (29 * 100) 100 = 29 := ⟨rfl, rfl⟩

/-- C6: a start query string that is not a valid ISO-8601 timestamp makes
the chart endpoint raise an uncaught ValueError (a generic server error),
not return a client error response. -/
theorem agent_chart_malformed_date_uncaught :
    agent_chart "agent1" (some "not-a-date") none "day" none ⟨2024, 3, 15, 12, 0, 0⟩
        ⟨[⟨BVal.vstr "app1", BVal.vstr "agent1", some (BVal.vstr "prodA")⟩],
         [⟨BVal.vstr "iss1", BVal.vstr "app1", none, PyNum.pnone, ⟨2024, 3, 10, 0, 0, 0⟩⟩],
         [], []⟩
      = Except.error PyErr.valueError := rfl

/-- C7: an issuance whose amount is an unparseable string makes the chart
endpoint raise an uncaught ValueError instead of contributing revenue 0,
while the stats endpoint parsers degrade the same amount to 0. -/
theorem agent_chart_malformed_amount_uncaught :
    agent_chart "agent1" (some "2024-03-01") (some "2024-03-31") "day" none
        ⟨2024, 3, 15, 12, 0, 0⟩
        ⟨[⟨BVal.vstr "app1", BVal.vstr "agent1", some (BVal.vstr "prodA")⟩],
         [⟨BVal.vstr "iss1", BVal.vstr "app1", none, PyNum.pstr "abc", ⟨2024, 3, 10, 0, 0, 0⟩⟩],
         [], []⟩
      = Except.error PyErr.valueError
    ∧ statsAmount (PyNum.pstr "abc") = 0
    ∧ bucketAmount (PyNum.pstr "abc") = 0 := ⟨rfl, rfl, rfl⟩

/-- C8 counterexample: an application stored with the decoded ObjectId form
of the agent id is fetched by the stats endpoint but missed by the chart
endpoint, which compares the raw string only. -/
theorem chart_fetch_misses_decoded_agent_id :
    statsApps "aaaaaaaaaaaaaaaaaaaaaaaa"
        ⟨[⟨BVal.vstr "app1", BVal.oid "aaaaaaaaaaaaaaaaaaaaaaaa", none⟩], [], [], []⟩
      = [⟨BVal.vstr "app1", BVal.oid "aaaaaaaaaaaaaaaaaaaaaaaa", none⟩]
    ∧ chartApps "aaaaaaaaaaaaaaaaaaaaaaaa"
        ⟨[⟨BVal.vstr "app1", BVal.oid "aaaaaaaaaaaaaaaaaaaaaaaa", none⟩], [], [], []⟩
      = [] := ⟨rfl, rfl⟩

/-- C8 amended: the stats and policies endpoints fetch an application iff
its agentId matches the raw string or its decoded ObjectId form; the chart
endpoint fetches it iff its agentId equals the raw string only. -/
theorem apps_fetch_agent_matching (agent : String) (st : Store) (a : Application)
    (h : a ∈ st.policyapplications) :
    (a ∈ statsApps agent st ↔ (a.agentId = BVal.vstr agent ∨ a.agentId = try_objectid agent))
    ∧ (a ∈ policiesApps agent st ↔ (a.agentId = BVal.vstr agent ∨ a.agentId = try_objectid agent))
    ∧ (a ∈ chartApps agent st ↔ a.agentId = BVal.vstr agent) := by
  refine ⟨?_, ?_, ?_⟩ <;>
    simp [statsApps, policiesApps, chartApps, matchesAgentDual, List.mem_filter, h]

/-- C8 witness: the amended statement at a concrete store -/
theorem apps_fetch_agent_matching_witness :
    ((⟨BVal.vstr "a1", BVal.vstr "ag", none⟩ : Application)
        ∈ statsApps "ag" ⟨[⟨BVal.vstr "a1", BVal.vstr "ag", none⟩], [], [], []⟩
      ↔ ((BVal.vstr "ag" : BVal) = BVal.vstr "ag" ∨ (BVal.vstr "ag" : BVal) = try_objectid "ag"))
    ∧ ((⟨BVal.vstr "a1", BVal.vstr "ag", none⟩ : Application)
        ∈ policiesApps "ag" ⟨[⟨BVal.vstr "a1", BVal.vstr "ag", none⟩], [], [], []⟩
      ↔ ((BVal.vstr "ag" : BVal) = BVal.vstr "ag" ∨ (BVal.vstr "ag" : BVal) = try_objectid "ag"))
    ∧ ((⟨BVal.vstr "a1", BVal.vstr "ag", none⟩ : Application)
        ∈ chartApps "ag" ⟨[⟨BVal.vstr "a1", BVal.vstr "ag", none⟩], [], [], []⟩
      ↔ (BVal.vstr "ag" : BVal) = BVal.vstr "ag") :=
  apps_fetch_agent_matching "ag" ⟨[⟨BVal.vstr "a1", BVal.vstr "ag", none⟩], [], [], []⟩
    ⟨BVal.vstr "a1", BVal.vstr "ag", none⟩ (by decide)

/-- helper: the 1M range always resolves -/
theorem range_to_dates_one_month (now : DateTime) :
    range_to_dates "1M" now = some (subMonthClamp now, now) := rfl

/-- helper: when the dual filter finds nothing, the raw string filter of
the chart endpoint finds nothing either -/
theorem chartApps_nil_of_statsApps_nil (agent : String) (st : Store)
    (h : statsApps agent st = []) : chartApps agent st = [] := by
  rw [statsApps, List.filter_eq_nil_iff] at h
  rw [chartApps, List.filter_eq_nil_iff]
  intro a ha
  have := h a ha
  simp [matchesAgentDual] at this ⊢
  exact fun hr => (this.1 hr).elim

/-- C9: for an agent with no matching application the stats endpoint
returns zeros with an empty top list, the chart endpoint an empty series
and the policies endpoint an empty page with total 0, and none of the
three issues an issuance or payment query (the query log is empty). -/
theorem zero_applications_zero_results
    (agent rangeKey interval sortBy order : String) (policyId : Option String)
    (page limit : Nat) (now s e : DateTime) (st : Store)
    (hres : range_to_dates rangeKey now = some (s, e))
    (happs : statsApps agent st = []) :
    agent_stats agent rangeKey now st
        = .ok ({ policiesIssued := 0, revenue := 0, bestSellingPolicy := none,
                 topPolicies := [], periodFrom := s, periodTo := e }, [])
    ∧ agent_chart agent none none interval policyId now st
        = .ok ({ series := [], metaInterval := interval, metaPoints := 0 }, [])
    ∧ agent_policies agent page limit sortBy order rangeKey now st
        = .ok ({ data := [], page := page, limit := limit, total := 0 }, []) := by
  have hchart : chartApps agent st = [] := chartApps_nil_of_statsApps_nil agent st happs
  have hpol : policiesApps agent st = [] := happs
  refine ⟨?_, ?_, ?_⟩
  · simp [agent_stats, hres, happs, statsRevenue, foldPayments, foldIssuances,
      totalRevenue, buildTopList, sortDescBy, statsFinalize, appProductMap]
  · simp [agent_chart, chartStartDt, chartEndDt, range_to_dates_one_month, hchart, Except.bind]
    rfl
  · simp [agent_policies, hres, hpol]

/-- C9 witness: the statement at a store holding one application of a
different agent -/
theorem zero_applications_zero_results_witness :
    agent_stats "ag" "all_time" ⟨2024, 3, 15, 12, 0, 0⟩
        ⟨[⟨BVal.vstr "a1", BVal.vstr "other", none⟩], [], [], []⟩
        = .ok ({ policiesIssued := 0, revenue := 0, bestSellingPolicy := none,
                 topPolicies := [], periodFrom := tsMin, periodTo := ⟨2024, 3, 15, 12, 0, 0⟩ }, [])
    ∧ agent_chart "ag" none none "day" none ⟨2024, 3, 15, 12, 0, 0⟩
        ⟨[⟨BVal.vstr "a1", BVal.vstr "other", none⟩], [], [], []⟩
        = .ok ({ series := [], metaInterval := "day", metaPoints := 0 }, [])
    ∧ agent_policies "ag" 1 10 "sold" "desc" "all_time" ⟨2024, 3, 15, 12, 0, 0⟩
        ⟨[⟨BVal.vstr "a1", BVal.vstr "other", none⟩], [], [], []⟩
        = .ok ({ data := [], page := 1, limit := 10, total := 0 }, []) :=
  zero_applications_zero_results "ag" "all_time" "day" "sold" "desc" none 1 10
    ⟨2024, 3, 15, 12, 0, 0⟩ tsMin ⟨2024, 3, 15, 12, 0, 0⟩
    ⟨[⟨BVal.vstr "a1", BVal.vstr "other", none⟩], [], [], []⟩ rfl rfl

/-- helper: the chart response tail depends on the interval parameter only
through the meta field, never through the series -/
theorem chart_tail_congr (b : Bool) (R : Except PyErr (List (String × Int))) (i1 i2 : String) :
    Except.map (fun r : ChartResp × List String => r.1.series)
      (if b then pure (⟨[], i1, 0⟩, ([] : List String))
       else (fun rows => ((⟨chartGroup rows, i1, (chartGroup rows).length⟩ : ChartResp),
              ["policyissuances"])) <$> R)
      = Except.map (fun r : ChartResp × List String => r.1.series)
      (if b then pure (⟨[], i2, 0⟩, ([] : List String))
       else (fun rows => ((⟨chartGroup rows, i2, (chartGroup rows).length⟩ : ChartResp),
              ["policyissuances"])) <$> R) := by
  cases b
  · cases R <;> rfl
  · rfl

/-- C10: the chart series is independent of the policyId and interval query
parameters: two requests differing only there return identical series. -/
theorem chart_series_ignores_policy_and_interval (agent : String)
    (startParam endParam : Option String) (i1 i2 : String) (p1 p2 : Option String)
    (now : DateTime) (st : Store) :
    (agent_chart agent startParam endParam i1 p1 now st).map (fun r => r.1.series)
      = (agent_chart agent startParam endParam i2 p2 now st).map (fun r => r.1.series) := by
  unfold agent_chart
  cases hs : chartStartDt startParam now with
  | error e => rfl
  | ok sd =>
    cases he : chartEndDt endParam now with
    | error e => rfl
    | ok ed => exact chart_tail_congr _ _ i1 i2
